import Mathlib

/-!
Verification of the RSS news bot (src/main.py) against its specification.

The pipeline is embedded shallowly:
* `UserConfig`, `check_patterns` — the per-user ruleset and the classifier
  (`RSSBot.check_patterns`).  Regular-expression matching is abstracted by a
  boolean matcher parameter `m : String → String → Bool` standing for
  `re.search(pattern, ·, re.IGNORECASE) is not None`; the classifier applies it
  to the lowercased text exactly as the Python code does.
* `DBState`, `save_news_item`, `mark_as_sent` — the `user_news` table with its
  `UNIQUE(user_id, guid)` constraint, `INSERT OR IGNORE` persistence and the
  sent flag update.
* `send_news_to_user`, `process_entry`, `process_cycle` — the per-entry
  dispatch portion of `parsing_loop`, with the outbound Telegram send modelled
  by a delivery oracle and its try/except swallowing of delivery errors.
* `Sched`, `start_parsing_for_user`, `stop_parsing_for_user` — the per-user
  poll-task lifecycle (`is_parsing` flag plus the arena of running tasks).
* `process_minor_pattern`, `process_major_pattern` — pattern admission with
  regex-compilation validation (abstracted by a `compiles` predicate).
* `delete_selected` — the shared logic of `delete_selected_minors` and
  `delete_selected_majors` (reverse-sorted positional pops).
* `CHECK_INTERVAL`, `sleepLoop`, `sleptSeconds` — the inter-cycle sleep with
  its once-per-second cancellation check.
-/

/-- Default minor-pattern threshold (`DEFAULT_MIN_MINOR = 1` in the source). -/
def DEFAULT_MIN_MINOR : Nat := 1

/-- Sleep interval between poll cycles, in seconds (`CHECK_INTERVAL = 60`). -/
def CHECK_INTERVAL : Nat := 60

/-- Per-user configuration (`UserConfig.__init__`).  The `last_checked`
datetime is kept as an optional ISO string, matching `to_dict`. -/
structure UserConfig where
  user_id : Nat
  is_parsing : Bool
  minor_patterns : List String
  major_patterns : List String
  min_minor_required : Nat
  rss_url : String
  last_checked : Option String
deriving DecidableEq

/-- Fresh configuration with the source's default patterns, threshold and
feed URL (`UserConfig.__init__`). -/
def UserConfig.new (uid : Nat) : UserConfig :=
  { user_id := uid
    is_parsing := false
    minor_patterns :=
      [ "\\bторгов(ый|ого|ом|ые|ых)?\\s+центр(е|а|ов)?\\b"
      , "\\bтц\\b"
      , "\\bтрц\\b"
      , "\\bсет(ь|и|ью|ей|ям|ями|ях)\\b(?:\\s+\\w+)\x7b0,3\x7d\\s+магазин(ов|а|ы)?\\b"
      , "\\bритейлер\\b"
      , "\\bсупермаркет\\b"
      , "\\bгипермаркет\\b" ]
    major_patterns :=
      [ "\\bcommonwealth\\b"
      , "\\bcmwp\\b"
      , "\\bcbre\\b"
      , "\\binventive\\s+retail\\s+group\\b" ]
    min_minor_required := DEFAULT_MIN_MINOR
    rss_url := "https://www.kommersant.ru/RSS/news.xml"
    last_checked := none }

/-- Classification verdict: the dict returned by `RSSBot.check_patterns`.
The empty-text early return builds a dict without a `total_count` key, so
that field is optional here. -/
structure Verdict where
  is_relevant : Bool
  major_count : Nat
  minor_count : Nat
  matched_patterns : List String
  total_count : Option Nat
deriving DecidableEq

/-- One `for pattern in …` loop of `check_patterns`: walk the pattern list,
and for each pattern matching the text append `label ++ pattern` to the
accumulated label list and bump the counter. -/
def scanPatterns (m : String → String → Bool) (label : String) (text : String) :
    List String → List String → Nat → List String × Nat
  | [], matched, count => (matched, count)
  | p :: rest, matched, count =>
      if m p text then scanPatterns m label text rest (matched ++ [label ++ p]) (count + 1)
      else scanPatterns m label text rest matched count

/-- The classifier `RSSBot.check_patterns(text, config)`.  `m` abstracts
`re.search(pattern, ·, re.IGNORECASE)`; the code lowercases the text first and
then scans every major pattern, then every minor pattern, in ruleset order.
An empty text short-circuits to a non-relevant zero-count verdict whose dict
has no `total_count` key. -/
def check_patterns (m : String → String → Bool) (text : String) (config : UserConfig) :
    Verdict :=
  if text = "" then
    { is_relevant := false, major_count := 0, minor_count := 0
      matched_patterns := [], total_count := none }
  else
    let combined_text := text.toLower
    let majorScan := scanPatterns m "MAJOR: " combined_text config.major_patterns [] 0
    let minorScan := scanPatterns m "MINOR: " combined_text config.minor_patterns majorScan.1 0
    { is_relevant :=
        decide (0 < majorScan.2) || decide (config.min_minor_required ≤ minorScan.2)
      major_count := majorScan.2
      minor_count := minorScan.2
      matched_patterns := minorScan.1
      total_count := some (majorScan.2 + minorScan.2) }

/-- Number of major patterns of the ruleset that match the text — the
specification's `majorCount(T, R)`, with matching performed as the code does
(case-insensitively, against the lowercased text). -/
def majorCountOf (m : String → String → Bool) (text : String) (config : UserConfig) : Nat :=
  (config.major_patterns.filter (fun p => m p text.toLower)).length

/-- Number of minor patterns of the ruleset that match the text — the
specification's `minorCount(T, R)`. -/
def minorCountOf (m : String → String → Bool) (text : String) (config : UserConfig) : Nat :=
  (config.minor_patterns.filter (fun p => m p text.toLower)).length

/-- Matcher that matches every text.  It is realized by Python regular
expressions: `re.search("a*", s, re.IGNORECASE)` succeeds for every string
`s`, the empty string included. -/
def alwaysMatch : String → String → Bool := fun _ _ => true

/-- Minimal ruleset holding the single always-matching major pattern. -/
def cfgMajorStar : UserConfig :=
  { user_id := 1, is_parsing := false, minor_patterns := []
    major_patterns := ["a*"], min_minor_required := 1
    rss_url := "https://example.com/rss", last_checked := none }

/-! ## Item store (`user_news` table) -/

/-- One row of the `user_news` table as created by `Database.init` /
`Database.save_news_item`. -/
structure NewsRow where
  id : Nat
  user_id : Nat
  guid : String
  title : String
  summary : String
  link : String
  published : String
  is_relevant : Bool
  major_count : Nat
  minor_count : Nat
  sent_to_user : Bool
  matched_patterns : String
deriving DecidableEq

/-- State of the `user_news` table: its rows plus the `AUTOINCREMENT`
counter for the `id` column. -/
structure DBState where
  rows : List NewsRow
  nextId : Nat
deriving DecidableEq

/-- The freshly created, empty table. -/
def dbInit : DBState := { rows := [], nextId := 0 }

/-- A feed entry as consumed by `save_news_item`: `entry.get('id', entry.link)`,
`entry.get('title', '')`, `entry.get('summary', '')`, `entry.link`, and the
already-stringified publication date. -/
structure Entry where
  id : Option String
  title : Option String
  summary : Option String
  link : String
  published : String
deriving DecidableEq

/-- The dict `save_news_item` returns on the non-`None` path.  It is built
from the incoming entry and verdict, except for `id`, which is read back from
the table. -/
structure NewsItem where
  id : Nat
  guid : String
  title : String
  summary : String
  link : String
  published : String
  major_count : Nat
  minor_count : Nat
  matched_patterns : List String
deriving DecidableEq

/-- `entry.get('id', entry.link)`. -/
def entryGuid (e : Entry) : String := e.id.getD e.link

/-- `'; '.join(matched_patterns) if matched_patterns else ''`. -/
def patternsStr (info : Verdict) : String :=
  if info.matched_patterns.isEmpty then "" else String.intercalate "; " info.matched_patterns

/-- True when a row with the given `(user_id, guid)` key is present — the
`UNIQUE(user_id, guid)` constraint that makes `INSERT OR IGNORE` a no-op. -/
def rowKeyExists (uid : Nat) (g : String) (db : DBState) : Bool :=
  db.rows.any (fun r => r.user_id == uid && r.guid == g)

/-- The row the `INSERT` statement of `save_news_item` would store: the
`VALUES` tuple, with `is_relevant` hardcoded to `True` and the defaulted
columns (`sent_to_user = 0`, autoincremented `id`). -/
def insertedRow (uid : Nat) (e : Entry) (info : Verdict) (db : DBState) : NewsRow :=
  { id := db.nextId, user_id := uid, guid := entryGuid e
    title := e.title.getD "", summary := e.summary.getD ""
    link := e.link, published := e.published
    is_relevant := true
    major_count := info.major_count, minor_count := info.minor_count
    sent_to_user := false, matched_patterns := patternsStr info }

/-- The table after the insert actually stored the row. -/
def insertedDB (uid : Nat) (e : Entry) (info : Verdict) (db : DBState) : DBState :=
  { rows := db.rows ++ [insertedRow uid e info db], nextId := db.nextId + 1 }

/-- `INSERT OR IGNORE INTO user_news …`: a no-op when a row with the same
`(user_id, guid)` key exists, an insert otherwise. -/
def insertIgnore (uid : Nat) (e : Entry) (info : Verdict) (db : DBState) : DBState :=
  if rowKeyExists uid (entryGuid e) db then db else insertedDB uid e info db

/-- `Database.save_news_item(user_id, entry, pattern_info)`.  Returns `none`
without touching the table when the verdict is not relevant; otherwise does an
`INSERT OR IGNORE` keyed on `(user_id, guid)` (the inserted row hardcodes
`is_relevant = True` and `sent_to_user = 0`), then selects the row's `id` back
and returns the item dict — whether or not the insert actually stored
anything. -/
def save_news_item (uid : Nat) (e : Entry) (info : Verdict) (db : DBState) :
    DBState × Option NewsItem :=
  if info.is_relevant = false then (db, none)
  else
    let guid := entryGuid e
    let db2 := insertIgnore uid e info db
    match db2.rows.find? (fun r => r.user_id == uid && r.guid == guid) with
    | some r =>
        (db2, some
          { id := r.id, guid := guid
            title := e.title.getD "", summary := e.summary.getD ""
            link := e.link, published := e.published
            major_count := info.major_count, minor_count := info.minor_count
            matched_patterns := info.matched_patterns })
    | none => (db2, none)

/-- `Database.mark_as_sent(news_id)`: `UPDATE user_news SET sent_to_user = 1
WHERE id = ?`. -/
def mark_as_sent (news_id : Nat) (db : DBState) : DBState :=
  { db with
    rows := db.rows.map (fun r =>
      if r.id == news_id then { r with sent_to_user := true } else r) }

/-- True when some row with the given `id` has its `sent_to_user` flag set. -/
def rowSent (news_id : Nat) (db : DBState) : Bool :=
  db.rows.any (fun r => r.id == news_id && r.sent_to_user)

/-- Table states reachable through the store operations, starting from the
empty table. -/
inductive ReachableDB : DBState → Prop where
  | empty : ReachableDB dbInit
  | step (uid : Nat) (e : Entry) (info : Verdict) {db : DBState} :
      ReachableDB db → ReachableDB (save_news_item uid e info db).1
  | mark (news_id : Nat) {db : DBState} :
      ReachableDB db → ReachableDB (mark_as_sent news_id db)

/-! ## Dispatcher (`send_news_to_user` and the per-entry loop body) -/

/-- Observable outcome of `send_news_to_user`: either the Telegram message
went out, or the exception was caught and logged. -/
inductive SendLog where
  | sent
  | loggedError (msg : String)
deriving DecidableEq

/-- The raw `bot.send_message` call, which raises on delivery failure; the
`delivered` oracle decides the outcome. -/
def bot_send_message (delivered : Bool) : Except String Unit :=
  if delivered then Except.ok () else Except.error "delivery failed"

/-- `send_news_to_user`: the whole body sits in `try: … except Exception as e:
logging.error(…)`, so a delivery failure is logged and swallowed and the
function always returns normally. -/
def send_news_to_user (delivered : Bool) : SendLog :=
  match bot_send_message delivered with
  | Except.ok _ => SendLog.sent
  | Except.error e => SendLog.loggedError e

/-- One iteration of the `for entry in feed.entries` loop of `parsing_loop`
(with the parsing flag held true): build the text, classify, and if relevant
save, send, and mark as sent.  `mark_as_sent` runs after `send_news_to_user`
returns, regardless of the delivery outcome. -/
def process_entry (m : String → String → Bool) (cfg : UserConfig) (delivered : Bool)
    (uid : Nat) (e : Entry) (db : DBState) : DBState :=
  let text := e.title.getD "" ++ " " ++ e.summary.getD ""
  let info := check_patterns m text cfg
  if info.is_relevant then
    match save_news_item uid e info db with
    | (db2, some item) =>
        let _sendResult := send_news_to_user delivered
        mark_as_sent item.id db2
    | (db2, none) => db2
  else db

/-- The whole entry loop of one poll cycle; `delivered i` is the delivery
outcome for the item dispatched at loop position `i`. -/
def process_cycle (m : String → String → Bool) (cfg : UserConfig) (delivered : Nat → Bool)
    (uid : Nat) : List Entry → Nat → DBState → DBState
  | [], _, db => db
  | e :: rest, i, db =>
      process_cycle m cfg delivered uid rest (i + 1) (process_entry m cfg (delivered i) uid e db)

/-! ## Poll scheduler (`start_parsing_for_user` / `stop_parsing_for_user`) -/

/-- Process-local scheduler state: for each user, the `is_parsing` flag of the
in-memory config and the number of live `parsing_loop` tasks for that user
(the `parsing_tasks` arena). -/
structure Sched where
  is_parsing : Nat → Bool
  running : Nat → Nat

/-- Fresh process state: no configs parsing, no tasks. -/
def schedInit : Sched := { is_parsing := fun _ => false, running := fun _ => 0 }

/-- `start_parsing_for_user`: no-op when the user's config already has
`is_parsing` set; otherwise set the flag and spawn one `parsing_loop` task,
recording its handle. -/
def start_parsing_for_user (uid : Nat) (s : Sched) : Sched :=
  if s.is_parsing uid then s
  else
    { is_parsing := fun u => if u = uid then true else s.is_parsing u
      running := fun u => if u = uid then s.running u + 1 else s.running u }

/-- `stop_parsing_for_user`: clear the flag (which makes every loop for this
user exit cooperatively) and cancel and drop the recorded task handle. -/
def stop_parsing_for_user (uid : Nat) (s : Sched) : Sched :=
  { is_parsing := fun u => if u = uid then false else s.is_parsing u
    running := fun u => if u = uid then 0 else s.running u }

/-- Scheduler states reachable from process start through start/stop calls. -/
inductive SchedReachable : Sched → Prop where
  | init : SchedReachable schedInit
  | start (uid : Nat) {s : Sched} :
      SchedReachable s → SchedReachable (start_parsing_for_user uid s)
  | stop (uid : Nat) {s : Sched} :
      SchedReachable s → SchedReachable (stop_parsing_for_user uid s)

/-! ## Pattern admission (`process_minor_pattern` / `process_major_pattern`) -/

/-- Outcome of a pattern-admission handler: whether the pattern was accepted,
the in-memory config afterwards, and the config written to the `users` table
by `save_user_config` (absent when the handler returned early). -/
structure AddOutcome where
  accepted : Bool
  config : UserConfig
  persisted : Option UserConfig
deriving DecidableEq

/-- Handler for a new minor pattern: `re.compile` it (abstracted by the
`compiles` predicate); on `re.error` answer with the invalid-pattern message
and return, leaving the config untouched and unsaved; otherwise append to
`minor_patterns` and persist the config. -/
def process_minor_pattern (compiles : String → Bool) (pattern : String)
    (config : UserConfig) : AddOutcome :=
  if compiles pattern then
    let config2 := { config with minor_patterns := config.minor_patterns ++ [pattern] }
    { accepted := true, config := config2, persisted := some config2 }
  else
    { accepted := false, config := config, persisted := none }

/-- Handler for a new major pattern; same shape as the minor one. -/
def process_major_pattern (compiles : String → Bool) (pattern : String)
    (config : UserConfig) : AddOutcome :=
  if compiles pattern then
    let config2 := { config with major_patterns := config.major_patterns ++ [pattern] }
    { accepted := true, config := config2, persisted := some config2 }
  else
    { accepted := false, config := config, persisted := none }

/-! ## Pattern removal (`delete_selected_minors` / `delete_selected_majors`) -/

/-- Outcome of a delete handler: either the "nothing selected" error answer,
or the success answer claiming `claimedCount` deletions together with the
remaining pattern list. -/
inductive DeleteOutcome where
  | nothingSelected
  | deleted (claimedCount : Nat) (patterns : List String)
deriving DecidableEq

/-- Insert into a descending-sorted list. -/
def insertDesc (x : Nat) : List Nat → List Nat
  | [] => [x]
  | y :: ys => if y ≤ x then x :: y :: ys else y :: insertDesc x ys

/-- `sorted(selected, reverse=True)`. -/
def sortDesc : List Nat → List Nat
  | [] => []
  | x :: xs => insertDesc x (sortDesc xs)

/-- The deletion loop: `for index in sorted(selected, reverse=True): if index <
len(patterns): patterns.pop(index)` — an out-of-bounds index is silently
skipped. -/
def pop_indices (selected : List Nat) (patterns : List String) : List String :=
  (sortDesc selected).foldl
    (fun acc i => if i < acc.length then acc.eraseIdx i else acc) patterns

/-- Shared logic of `delete_selected_minors` and `delete_selected_majors`:
with nothing selected, answer with an error; otherwise pop the selected
positions (skipping out-of-bounds ones) and report `len(selected)` deletions
as a success. -/
def delete_selected (selected : List Nat) (patterns : List String) : DeleteOutcome :=
  if selected.isEmpty then DeleteOutcome.nothingSelected
  else DeleteOutcome.deleted selected.length (pop_indices selected patterns)

/-- True exactly for the outcome the handler reports with an error answer
("nothing selected"); the `deleted` outcome is announced as a success. -/
def isErrorReply : DeleteOutcome → Bool
  | DeleteOutcome.nothingSelected => true
  | DeleteOutcome.deleted _ _ => false

/-! ## Inter-cycle sleep (`parsing_loop` tail) -/

/-- The sleep loop `for _ in range(CHECK_INTERVAL): if not is_parsing: break;
await asyncio.sleep(1)`.  `f t` tells whether the parsing flag is still set at
second `t`; the result is the number of seconds actually slept. -/
def sleepLoop : Nat → (Nat → Bool) → Nat → Nat
  | 0, _, t => t
  | n + 1, f, t => if f t then sleepLoop n f (t + 1) else t

/-- Seconds slept between two poll cycles. -/
def sleptSeconds (f : Nat → Bool) : Nat := sleepLoop CHECK_INTERVAL f 0

/-! ## Sample inputs used by witnesses and counterexamples -/

/-- A concrete feed entry. -/
def entry0 : Entry :=
  { id := some "g1", title := some "t", summary := some "s"
    link := "https://example.com/a", published := "2026-01-01" }

/-- A relevant verdict for `entry0`. -/
def relevantInfo0 : Verdict :=
  { is_relevant := true, major_count := 1, minor_count := 0
    matched_patterns := ["MAJOR: a*"], total_count := some 1 }

/-- A non-relevant verdict. -/
def irrelevantInfo0 : Verdict :=
  { is_relevant := false, major_count := 0, minor_count := 0
    matched_patterns := [], total_count := some 0 }

/-- Sample compilability predicate: in Python, `re.compile("(")` raises
`re.error` (unbalanced group) while other sample expressions compile. -/
def compilesSample : String → Bool := fun s => s != "("

/-- The table state produced by saving `entry0` with the verdict that
`check_patterns alwaysMatch "t s" cfgMajorStar` yields, starting empty. -/
def db2Sample : DBState :=
  { rows :=
      [ { id := 0, user_id := 1, guid := "g1", title := "t", summary := "s"
          link := "https://example.com/a", published := "2026-01-01"
          is_relevant := true, major_count := 1, minor_count := 0
          sent_to_user := false, matched_patterns := "MAJOR: a*" } ]
    nextId := 1 }

/-- The item dict returned by that save. -/
def itemSample : NewsItem :=
  { id := 0, guid := "g1", title := "t", summary := "s"
    link := "https://example.com/a", published := "2026-01-01"
    major_count := 1, minor_count := 0, matched_patterns := ["MAJOR: a*"] }

/-! # Helper lemmas -/

/-- Characterization of one pattern-scanning loop: it appends the labels of
the matching patterns, in list order, and adds the number of matches to the
counter. -/
theorem scanPatterns_spec (m : String → String → Bool) (label text : String)
    (pats : List String) : ∀ (matched : List String) (count : Nat),
    scanPatterns m label text pats matched count =
      (matched ++ (pats.filter (fun p => m p text)).map (fun p => label ++ p),
       count + (pats.filter (fun p => m p text)).length) := by
  induction pats with
  | nil => intro matched count; simp [scanPatterns]
  | cons p rest ih =>
      intro matched count
      cases h : m p text with
      | true =>
          simp only [scanPatterns, h, if_pos, List.filter_cons, ih]
          simp [h, List.append_assoc]
          omega
      | false =>
          simp only [scanPatterns, h, List.filter_cons, ih]
          simp [h]

/-- Fuel-indexed sleep loop never sleeps longer than its fuel. -/
theorem sleepLoop_le (f : Nat → Bool) (n : Nat) : ∀ (t : Nat), sleepLoop n f t ≤ t + n := by
  induction n with
  | zero => intro t; simp [sleepLoop]
  | succ k ih =>
      intro t
      simp only [sleepLoop]
      by_cases h : f t = true
      · rw [if_pos h]
        have := ih (t + 1)
        omega
      · rw [if_neg h]
        omega

/-- Once the parsing flag is down at second `k`, the sleep loop stops no
later than second `k`. -/
theorem sleepLoop_stop (f : Nat → Bool) (k : Nat) (hk : f k = false) (n : Nat) :
    ∀ (t : Nat), t ≤ k → sleepLoop n f t ≤ k := by
  induction n with
  | zero => intro t ht; simpa [sleepLoop] using ht
  | succ m ih =>
      intro t ht
      simp only [sleepLoop]
      by_cases h : f t = true
      · rw [if_pos h]
        have htk : t ≠ k := by
          intro e
          rw [e, hk] at h
          cases h
        exact ih (t + 1) (by omega)
      · rw [if_neg h]
        exact ht

/-- Membership in `insertDesc` comes from the inserted element or the list. -/
theorem mem_insertDesc (x a : Nat) (l : List Nat) (h : a ∈ insertDesc x l) :
    a = x ∨ a ∈ l := by
  induction l with
  | nil => simpa [insertDesc] using h
  | cons y ys ih =>
      simp only [insertDesc] at h
      by_cases hc : y ≤ x
      · rw [if_pos hc] at h
        simpa using h
      · rw [if_neg hc] at h
        rcases List.mem_cons.mp h with h1 | h2
        · exact Or.inr (by simp [h1])
        · rcases ih h2 with h3 | h4
          · exact Or.inl h3
          · exact Or.inr (by simp [h4])

/-- `sortDesc` is a permutation-style rearrangement: membership persists. -/
theorem mem_sortDesc (l : List Nat) (a : Nat) (h : a ∈ sortDesc l) : a ∈ l := by
  induction l with
  | nil => simp [sortDesc] at h
  | cons x xs ih =>
      simp only [sortDesc] at h
      rcases mem_insertDesc x a _ h with h1 | h2
      · simp [h1]
      · exact List.mem_cons_of_mem x (ih h2)

/-- Popping only out-of-bounds positions leaves the list untouched. -/
theorem foldl_pop_oob (l : List Nat) (pats : List String)
    (h : ∀ i ∈ l, pats.length ≤ i) :
    l.foldl (fun acc i => if i < acc.length then acc.eraseIdx i else acc) pats = pats := by
  induction l with
  | nil => rfl
  | cons a rest ih =>
      simp only [List.foldl_cons]
      rw [if_neg (by have := h a (by simp); omega)]
      exact ih (fun i hi => h i (by simp [hi]))

/-- Reachable scheduler states have a task running exactly for the users
whose config flag is up, and never more than one. -/
theorem sched_invariant : ∀ (s : Sched), SchedReachable s → ∀ (u : Nat),
    (s.is_parsing u = false ∧ s.running u = 0) ∨
    (s.is_parsing u = true ∧ s.running u = 1) := by
  intro s hs
  induction hs with
  | init => intro u; exact Or.inl ⟨rfl, rfl⟩
  | @start uid s2 _ ih =>
      intro u
      by_cases hp : s2.is_parsing uid = true
      · simpa [start_parsing_for_user, hp] using ih u
      · have hpf : s2.is_parsing uid = false := by
          cases hb : s2.is_parsing uid
          · rfl
          · exact absurd hb hp
        by_cases hu : u = uid
        · subst hu
          rcases ih u with ⟨h1, h2⟩ | ⟨h1, h2⟩
          · exact Or.inr (by simp [start_parsing_for_user, hpf, h2])
          · rw [h1] at hpf; cases hpf
        · rcases ih u with ⟨h1, h2⟩ | ⟨h1, h2⟩
          · exact Or.inl (by simp [start_parsing_for_user, hpf, hu, h1, h2])
          · exact Or.inr (by simp [start_parsing_for_user, hpf, hu, h1, h2])
  | @stop uid s2 _ ih =>
      intro u
      by_cases hu : u = uid
      · subst hu; exact Or.inl (by simp [stop_parsing_for_user])
      · rcases ih u with ⟨h1, h2⟩ | ⟨h1, h2⟩
        · exact Or.inl (by simp [stop_parsing_for_user, hu, h1, h2])
        · exact Or.inr (by simp [stop_parsing_for_user, hu, h1, h2])

/-! # Claims -/

/-- Claim C3 (counterexample): the relevance formula fails on the empty text.
With the ruleset whose single major pattern is `"a*"` — which matches every
string, the empty one included, so `majorCount("", R) = 1 > 0` — the
classifier still returns a non-relevant verdict, because `check_patterns`
short-circuits on falsy text before consulting any pattern. -/
theorem c3_counterexample :
    ¬ ((check_patterns alwaysMatch "" cfgMajorStar).is_relevant =
       (decide (0 < majorCountOf alwaysMatch "" cfgMajorStar) ||
        decide (cfgMajorStar.min_minor_required ≤ minorCountOf alwaysMatch "" cfgMajorStar))) := by
  decide

/-- Claim C3 (amended): for every matcher, ruleset and *non-empty* text, the
verdict satisfies `isRelevant = (majorCount > 0 OR minorCount >= threshold)`,
where the counts are the numbers of major/minor patterns matching the
lowercased text. -/
theorem c3_relevance_formula_amended (m : String → String → Bool) (cfg : UserConfig)
    (t : String) (h : t ≠ "") :
    (check_patterns m t cfg).is_relevant =
      (decide (0 < majorCountOf m t cfg) ||
       decide (cfg.min_minor_required ≤ minorCountOf m t cfg)) := by
  simp [check_patterns, h, scanPatterns_spec, majorCountOf, minorCountOf]

/-- Witness for C3's amended theorem at a concrete non-empty text. -/
theorem c3_witness :
    (check_patterns alwaysMatch "x" cfgMajorStar).is_relevant =
      (decide (0 < majorCountOf alwaysMatch "x" cfgMajorStar) ||
       decide (cfgMajorStar.min_minor_required ≤ minorCountOf alwaysMatch "x" cfgMajorStar)) :=
  c3_relevance_formula_amended alwaysMatch cfgMajorStar "x" (by decide)

/-- Claim C7 (counterexample): the label-recording contract fails on the
empty text.  The single major pattern `"a*"` matches the (lowercased) empty
text, yet `matched_patterns` stays empty, because the classifier never runs
its matching loops for falsy text. -/
theorem c7_counterexample :
    alwaysMatch "a*" ("".toLower) = true ∧
    ¬ ((check_patterns alwaysMatch "" cfgMajorStar).matched_patterns =
       (cfgMajorStar.major_patterns.filter (fun p => alwaysMatch p ("".toLower))).map
           (fun p => "MAJOR: " ++ p) ++
       (cfgMajorStar.minor_patterns.filter (fun p => alwaysMatch p ("".toLower))).map
           (fun p => "MINOR: " ++ p)) := by
  decide

/-- Claim C7 (amended): for every *non-empty* text, the classifier matches
the lowercased text against every major pattern then every minor pattern in
ruleset order; each match increments the respective counter by one and
appends exactly the label `"MAJOR: <expression>"` / `"MINOR: <expression>"`,
so `matched_patterns` lists all major labels first, then all minor labels,
each in ruleset order. -/
theorem c7_matched_order_amended (m : String → String → Bool) (cfg : UserConfig)
    (t : String) (h : t ≠ "") :
    (check_patterns m t cfg).major_count =
        (cfg.major_patterns.filter (fun p => m p t.toLower)).length ∧
    (check_patterns m t cfg).minor_count =
        (cfg.minor_patterns.filter (fun p => m p t.toLower)).length ∧
    (check_patterns m t cfg).matched_patterns =
      (cfg.major_patterns.filter (fun p => m p t.toLower)).map (fun p => "MAJOR: " ++ p) ++
      (cfg.minor_patterns.filter (fun p => m p t.toLower)).map (fun p => "MINOR: " ++ p) := by
  simp [check_patterns, h, scanPatterns_spec]

/-- Witness for C7's amended theorem at a concrete non-empty text. -/
theorem c7_witness :
    (check_patterns alwaysMatch "x" cfgMajorStar).major_count =
        (cfgMajorStar.major_patterns.filter (fun p => alwaysMatch p ("x".toLower))).length ∧
    (check_patterns alwaysMatch "x" cfgMajorStar).minor_count =
        (cfgMajorStar.minor_patterns.filter (fun p => alwaysMatch p ("x".toLower))).length ∧
    (check_patterns alwaysMatch "x" cfgMajorStar).matched_patterns =
      (cfgMajorStar.major_patterns.filter (fun p => alwaysMatch p ("x".toLower))).map
          (fun p => "MAJOR: " ++ p) ++
      (cfgMajorStar.minor_patterns.filter (fun p => alwaysMatch p ("x".toLower))).map
          (fun p => "MINOR: " ++ p) :=
  c7_matched_order_amended alwaysMatch cfgMajorStar "x" (by decide)

/-- Claim C10 (counterexample): the `total_count` consistency fails on the
empty text: the early-return dict of `check_patterns` carries no
`total_count` key at all, so it cannot equal `major_count + minor_count`. -/
theorem c10_counterexample :
    ¬ ((check_patterns alwaysMatch "" cfgMajorStar).total_count =
       some ((check_patterns alwaysMatch "" cfgMajorStar).major_count +
             (check_patterns alwaysMatch "" cfgMajorStar).minor_count)) := by
  decide

/-- Claim C10 (amended): for every text and config the verdict is internally
consistent — `major_count` is at most the number of major patterns,
`minor_count` at most the number of minor patterns, and `matched_patterns`
has length `major_count + minor_count`; the `total_count` field equals
`major_count + minor_count` on the non-empty-text path (on the empty text the
verdict carries no `total_count` field). -/
theorem c10_verdict_consistency_amended (m : String → String → Bool) (cfg : UserConfig)
    (t : String) :
    (check_patterns m t cfg).major_count ≤ cfg.major_patterns.length ∧
    (check_patterns m t cfg).minor_count ≤ cfg.minor_patterns.length ∧
    (check_patterns m t cfg).matched_patterns.length =
      (check_patterns m t cfg).major_count + (check_patterns m t cfg).minor_count ∧
    (t ≠ "" → (check_patterns m t cfg).total_count =
      some ((check_patterns m t cfg).major_count + (check_patterns m t cfg).minor_count)) := by
  by_cases h : t = ""
  · subst h
    simp [check_patterns]
  · simp [check_patterns, h, scanPatterns_spec]
    exact ⟨List.length_filter_le _ _, List.length_filter_le _ _⟩

/-- Witness for C10's amended theorem, with the inner non-empty-text
hypothesis discharged at `"x"`. -/
theorem c10_witness :
    (check_patterns alwaysMatch "x" cfgMajorStar).major_count ≤
        cfgMajorStar.major_patterns.length ∧
    (check_patterns alwaysMatch "x" cfgMajorStar).minor_count ≤
        cfgMajorStar.minor_patterns.length ∧
    (check_patterns alwaysMatch "x" cfgMajorStar).matched_patterns.length =
      (check_patterns alwaysMatch "x" cfgMajorStar).major_count +
      (check_patterns alwaysMatch "x" cfgMajorStar).minor_count ∧
    (check_patterns alwaysMatch "x" cfgMajorStar).total_count =
      some ((check_patterns alwaysMatch "x" cfgMajorStar).major_count +
            (check_patterns alwaysMatch "x" cfgMajorStar).minor_count) :=
  ⟨(c10_verdict_consistency_amended alwaysMatch cfgMajorStar "x").1,
   (c10_verdict_consistency_amended alwaysMatch cfgMajorStar "x").2.1,
   (c10_verdict_consistency_amended alwaysMatch cfgMajorStar "x").2.2.1,
   (c10_verdict_consistency_amended alwaysMatch cfgMajorStar "x").2.2.2 (by decide)⟩

/-- Claim C8 (counterexample): the default interval between poll cycles is
not 300 seconds — the source sets `CHECK_INTERVAL = 60`. -/
theorem c8_counterexample : CHECK_INTERVAL ≠ 300 := by decide

/-- Claim C8 (amended): between poll cycles the scheduler sleeps a fixed
interval of 60 seconds by default (`CHECK_INTERVAL = 60`, not 300), checking
the parsing flag once per second, so once the flag is down at second `k` the
sleep ends within at most `k` seconds — a stop request takes effect within
about one second. -/
theorem c8_sleep_interval_amended (f : Nat → Bool) (k : Nat) (h : f k = false) :
    CHECK_INTERVAL = 60 ∧ sleptSeconds f ≤ CHECK_INTERVAL ∧ sleptSeconds f ≤ k := by
  refine ⟨rfl, ?_, ?_⟩
  · simpa [sleptSeconds] using sleepLoop_le f CHECK_INTERVAL 0
  · exact sleepLoop_stop f k h CHECK_INTERVAL 0 (Nat.zero_le k)

/-- Witness for C8's amended theorem: with the flag down from the start, the
loop sleeps zero seconds. -/
theorem c8_witness :
    CHECK_INTERVAL = 60 ∧ sleptSeconds (fun _ => false) ≤ CHECK_INTERVAL ∧
      sleptSeconds (fun _ => false) ≤ 0 :=
  c8_sleep_interval_amended (fun _ => false) 0 rfl

/-- Claim C5 (confirmed): adding a pattern whose expression does not compile
is rejected — the handler answers with the invalid-pattern error, both
pattern lists are unchanged and nothing is persisted; on success the
expression is appended to the corresponding list and the config is persisted.
Both the minor and the major handler behave this way. -/
theorem c5_add_pattern (compiles : String → Bool) (p : String) (cfg : UserConfig) :
    (compiles p = false →
      process_minor_pattern compiles p cfg =
        { accepted := false, config := cfg, persisted := none } ∧
      process_major_pattern compiles p cfg =
        { accepted := false, config := cfg, persisted := none }) ∧
    (compiles p = true →
      (process_minor_pattern compiles p cfg).accepted = true ∧
      (process_minor_pattern compiles p cfg).config.minor_patterns =
          cfg.minor_patterns ++ [p] ∧
      (process_minor_pattern compiles p cfg).config.major_patterns = cfg.major_patterns ∧
      (process_minor_pattern compiles p cfg).persisted =
          some (process_minor_pattern compiles p cfg).config ∧
      (process_major_pattern compiles p cfg).accepted = true ∧
      (process_major_pattern compiles p cfg).config.major_patterns =
          cfg.major_patterns ++ [p] ∧
      (process_major_pattern compiles p cfg).config.minor_patterns = cfg.minor_patterns ∧
      (process_major_pattern compiles p cfg).persisted =
          some (process_major_pattern compiles p cfg).config) := by
  constructor
  · intro h
    simp [process_minor_pattern, process_major_pattern, h]
  · intro h
    simp [process_minor_pattern, process_major_pattern, h]

/-- Witness for C5: the unbalanced group `"("` is rejected and leaves the
default config untouched, while `"x"` is appended to the minor list. -/
theorem c5_witness :
    (process_minor_pattern compilesSample "(" (UserConfig.new 1) =
        { accepted := false, config := UserConfig.new 1, persisted := none } ∧
     process_major_pattern compilesSample "(" (UserConfig.new 1) =
        { accepted := false, config := UserConfig.new 1, persisted := none }) ∧
    (process_minor_pattern compilesSample "x" (UserConfig.new 1)).config.minor_patterns =
      (UserConfig.new 1).minor_patterns ++ ["x"] :=
  ⟨(c5_add_pattern compilesSample "(" (UserConfig.new 1)).1 (by decide),
   ((c5_add_pattern compilesSample "x" (UserConfig.new 1)).2 (by decide)).2.1⟩

/-- Claim C6 (counterexample): removing by the out-of-bounds position 5 from
a 3-pattern list does NOT fail with a NotFound error.  The handler's reply is
the success outcome, claiming one deletion, with the pattern list unchanged;
the only error reply the handler knows is "nothing selected". -/
theorem c6_counterexample :
    delete_selected [5] ["a", "b", "c"] = DeleteOutcome.deleted 1 ["a", "b", "c"] ∧
    isErrorReply (delete_selected [5] ["a", "b", "c"]) = false := by
  decide

/-- Claim C6 (amended): removing patterns by out-of-bounds positions leaves
the pattern list unchanged (no partial removal), but instead of a NotFound
error the handler silently skips those positions and reports success,
claiming `selected.length` deletions.  The same logic backs both the minor
and the major delete handler. -/
theorem c6_remove_out_of_bounds_amended (selected : List Nat) (patterns : List String)
    (hne : selected ≠ []) (hoob : ∀ i ∈ selected, patterns.length ≤ i) :
    delete_selected selected patterns =
      DeleteOutcome.deleted selected.length patterns ∧
    isErrorReply (delete_selected selected patterns) = false := by
  cases selected with
  | nil => cases hne rfl
  | cons a rest =>
      have hp : pop_indices (a :: rest) patterns = patterns := by
        unfold pop_indices
        exact foldl_pop_oob _ _ (fun i hi => hoob i (mem_sortDesc _ _ hi))
      simp [delete_selected, hp, isErrorReply]

/-- Witness for C6's amended theorem at a concrete out-of-bounds selection. -/
theorem c6_witness :
    delete_selected [7, 9] ["a"] = DeleteOutcome.deleted 2 ["a"] ∧
    isErrorReply (delete_selected [7, 9] ["a"]) = false :=
  c6_remove_out_of_bounds_amended [7, 9] ["a"] (by decide) (by decide)

/-- Claim C4 (confirmed): in every reachable scheduler state at most one poll
task runs per user; `start_parsing_for_user` is a no-op when the user's
parsing flag is already up, and calling it twice in a row leaves exactly one
running task for that user. -/
theorem c4_single_task (s : Sched) (hs : SchedReachable s) (uid : Nat) :
    s.running uid ≤ 1 ∧
    (s.is_parsing uid = true → start_parsing_for_user uid s = s) ∧
    (start_parsing_for_user uid (start_parsing_for_user uid s)).running uid = 1 := by
  rcases sched_invariant s hs uid with ⟨h1, h2⟩ | ⟨h1, h2⟩
  · refine ⟨by omega, ?_, ?_⟩
    · intro hp
      rw [hp] at h1
      cases h1
    · have e1 : start_parsing_for_user uid s =
          { is_parsing := fun u => if u = uid then true else s.is_parsing u
            running := fun u => if u = uid then s.running u + 1 else s.running u } := by
        simp [start_parsing_for_user, h1]
      rw [e1]
      simp [start_parsing_for_user, h2]
  · have e : start_parsing_for_user uid s = s := by
      simp [start_parsing_for_user, h1]
    exact ⟨by omega, fun _ => e, by rw [e, e, h2]⟩

/-- Witness for C4 from the reachable start state and one further reachable
state (after one start, a second start is a no-op). -/
theorem c4_witness :
    schedInit.running 0 ≤ 1 ∧
    (start_parsing_for_user 0 (start_parsing_for_user 0 schedInit)).running 0 = 1 ∧
    start_parsing_for_user 0 (start_parsing_for_user 0 schedInit) =
      start_parsing_for_user 0 schedInit :=
  ⟨(c4_single_task schedInit SchedReachable.init 0).1,
   (c4_single_task schedInit SchedReachable.init 0).2.2,
   (c4_single_task (start_parsing_for_user 0 schedInit)
      (SchedReachable.start 0 SchedReachable.init) 0).2.1 (by decide)⟩

/-- A list whose `any` is false has no `find?` hit. -/
theorem find?_eq_none_of_any_false {α : Type} (p : α → Bool) (l : List α)
    (h : l.any p = false) : l.find? p = none := by
  rw [List.find?_eq_none]
  intro x hx hpx
  have ha : l.any p = true := List.any_eq_true.mpr ⟨x, hx, hpx⟩
  rw [h] at ha
  cases ha

/-- A list whose `any` is false filters to the empty list. -/
theorem filter_eq_nil_of_any_false {α : Type} (p : α → Bool) (l : List α)
    (h : l.any p = false) : l.filter p = [] := by
  rw [List.filter_eq_nil_iff]
  intro x hx hpx
  have ha : l.any p = true := List.any_eq_true.mpr ⟨x, hx, hpx⟩
  rw [h] at ha
  cases ha

/-- With a relevant verdict, the table side of `save_news_item` is the
`INSERT OR IGNORE` result, whatever the read-back finds. -/
theorem save_fst_of_relevant (uid : Nat) (e : Entry) (info : Verdict) (db : DBState)
    (h : info.is_relevant = true) :
    (save_news_item uid e info db).1 = insertIgnore uid e info db := by
  simp only [save_news_item, h]
  rw [if_neg (by simp)]
  cases hf : (insertIgnore uid e info db).rows.find?
      (fun r => r.user_id == uid && r.guid == entryGuid e) <;> simp [hf]

/-- The freshly inserted row carries the `(user_id, guid)` key. -/
theorem rowKeyExists_insertedDB (uid : Nat) (e : Entry) (info : Verdict) (db : DBState) :
    rowKeyExists uid (entryGuid e) (insertedDB uid e info db) = true := by
  simp [rowKeyExists, insertedDB, insertedRow, List.any_append]

/-- In every reachable table state, every persisted row is marked relevant:
`save_news_item` only ever inserts rows with `is_relevant = True` and
`mark_as_sent` only flips the sent flag. -/
theorem reachable_rows_relevant (db : DBState) (h : ReachableDB db) :
    db.rows.all (fun r => r.is_relevant) = true := by
  induction h with
  | empty => rfl
  | @step uid e info db2 _ ih =>
      by_cases hrel : info.is_relevant = false
      · simp [save_news_item, hrel, ih]
      · have hrel2 : info.is_relevant = true := by
          cases hb : info.is_relevant
          · exact absurd hb hrel
          · rfl
        rw [save_fst_of_relevant uid e info db2 hrel2, insertIgnore]
        by_cases hex : rowKeyExists uid (entryGuid e) db2 = true
        · rw [if_pos hex]
          exact ih
        · rw [if_neg hex]
          simp only [insertedDB, List.all_append, ih, Bool.true_and]
          simp [insertedRow]
  | @mark nid db2 _ ih =>
      rw [List.all_eq_true] at ih ⊢
      intro r hr
      rcases List.mem_map.mp hr with ⟨r0, hr0, rfl⟩
      have hrel := ih r0 hr0
      by_cases hid : (r0.id == nid) = true
      · simp [hid, hrel]
      · simp only [hid]
        simpa using hrel

/-- Claim C9 (confirmed): only relevant items are persisted — for a
non-relevant verdict `save_news_item` returns `None` and performs no write,
and in every reachable table state every persisted row has `is_relevant`
true. -/
theorem c9_only_relevant_persisted :
    (∀ (uid : Nat) (e : Entry) (info : Verdict) (db : DBState),
      info.is_relevant = false → save_news_item uid e info db = (db, none)) ∧
    (∀ (db : DBState), ReachableDB db →
      db.rows.all (fun r => r.is_relevant) = true) :=
  ⟨fun uid e info db h => by simp [save_news_item, h],
   fun db h => reachable_rows_relevant db h⟩

/-- Witness for C9: a non-relevant verdict is dropped without a write, and a
table reached by one relevant save holds only relevant rows. -/
theorem c9_witness :
    save_news_item 1 entry0 irrelevantInfo0 dbInit = (dbInit, none) ∧
    ((save_news_item 1 entry0 relevantInfo0 dbInit).1).rows.all
      (fun r => r.is_relevant) = true :=
  ⟨c9_only_relevant_persisted.1 1 entry0 irrelevantInfo0 dbInit rfl,
   c9_only_relevant_persisted.2 _
     (ReachableDB.step 1 entry0 relevantInfo0 ReachableDB.empty)⟩

/-- With a relevant verdict and the `(user_id, guid)` key already present,
`save_news_item` returns an item dict, not `None`. -/
theorem save_snd_isSome (uid : Nat) (e : Entry) (info : Verdict) (db : DBState)
    (h : info.is_relevant = true)
    (hex : rowKeyExists uid (entryGuid e) db = true) :
    (save_news_item uid e info db).2 ≠ none := by
  simp only [save_news_item, h]
  rw [if_neg (by simp)]
  have hig : insertIgnore uid e info db = db := by
    simp [insertIgnore, hex]
  rw [hig]
  have hexists : ∃ x ∈ db.rows, (x.user_id == uid && x.guid == entryGuid e) = true := by
    rw [rowKeyExists, List.any_eq_true] at hex
    exact hex
  rcases hexists with ⟨x, hx, hpx⟩
  cases hf : db.rows.find? (fun r => r.user_id == uid && r.guid == entryGuid e) with
  | none =>
      rw [List.find?_eq_none] at hf
      exact absurd hpx (hf x hx)
  | some r => simp [hf]

/-- Claim C1 (amended): saving the same `(user_id, guid)` twice stores the
row exactly once — the second call performs no write: the whole table,
hence every field of the stored row including `sent_to_user`, is unchanged —
but the second call does not signal the duplicate: it returns the item dict
(with the existing row's id) exactly as a fresh insert does, never a
stored-nothing indicator. -/
theorem c1_idempotent_insert_amended (uid : Nat) (e e2 : Entry) (info info2 : Verdict)
    (db : DBState) (h1 : info.is_relevant = true) (h2 : info2.is_relevant = true)
    (hg : entryGuid e2 = entryGuid e)
    (habs : rowKeyExists uid (entryGuid e) db = false) :
    (((save_news_item uid e info db).1).rows.filter
        (fun r => r.user_id == uid && r.guid == entryGuid e)).length = 1 ∧
    (save_news_item uid e2 info2 (save_news_item uid e info db).1).1 =
      (save_news_item uid e info db).1 ∧
    (save_news_item uid e2 info2 (save_news_item uid e info db).1).2 ≠ none := by
  have hfst : (save_news_item uid e info db).1 = insertedDB uid e info db := by
    rw [save_fst_of_relevant uid e info db h1, insertIgnore, if_neg (by simp [habs])]
  have hex1 : rowKeyExists uid (entryGuid e) (save_news_item uid e info db).1 = true := by
    rw [hfst]
    exact rowKeyExists_insertedDB uid e info db
  refine ⟨?_, ?_, ?_⟩
  · rw [hfst]
    have hnil : db.rows.filter (fun r => r.user_id == uid && r.guid == entryGuid e) = [] :=
      filter_eq_nil_of_any_false _ _ habs
    simp [insertedDB, List.filter_append, hnil, insertedRow]
  · rw [save_fst_of_relevant uid e2 info2 _ h2, insertIgnore, hg, if_pos hex1]
  · exact save_snd_isSome uid e2 info2 _ h2 (by rw [hg]; exact hex1)

/-- Claim C1 (counterexample): the second call for the same `(user_id, guid)`
does not return a stored-nothing result.  Saving `entry0` twice into the
empty table: the second call leaves the table unchanged but returns the item
dict again (Python returns the dict built from the entry, with the existing
row id), so the caller cannot tell the duplicate from a fresh insert. -/
theorem c1_counterexample :
    (save_news_item 1 entry0 relevantInfo0
        (save_news_item 1 entry0 relevantInfo0 dbInit).1).2 ≠ none ∧
    (save_news_item 1 entry0 relevantInfo0
        (save_news_item 1 entry0 relevantInfo0 dbInit).1).1 =
      (save_news_item 1 entry0 relevantInfo0 dbInit).1 := by
  decide

/-- Witness for C1's amended theorem at the concrete double save. -/
theorem c1_witness :
    (((save_news_item 1 entry0 relevantInfo0 dbInit).1).rows.filter
        (fun r => r.user_id == 1 && r.guid == entryGuid entry0)).length = 1 ∧
    (save_news_item 1 entry0 relevantInfo0
        (save_news_item 1 entry0 relevantInfo0 dbInit).1).1 =
      (save_news_item 1 entry0 relevantInfo0 dbInit).1 ∧
    (save_news_item 1 entry0 relevantInfo0
        (save_news_item 1 entry0 relevantInfo0 dbInit).1).2 ≠ none :=
  c1_idempotent_insert_amended 1 entry0 entry0 relevantInfo0 relevantInfo0 dbInit
    rfl rfl rfl (by decide)

/-- A save that returns an item dict had a relevant verdict. -/
theorem relevant_of_save_some (uid : Nat) (e : Entry) (info : Verdict) (db db2 : DBState)
    (item : NewsItem) (h : save_news_item uid e info db = (db2, some item)) :
    info.is_relevant = true := by
  cases hb : info.is_relevant
  · rw [show save_news_item uid e info db = (db, none) by simp [save_news_item, hb]] at h
    simp at h
  · rfl

/-- A save that returns an item dict read its `id` back from a row of the
resulting table. -/
theorem save_some_row_mem (uid : Nat) (e : Entry) (info : Verdict) (db db2 : DBState)
    (item : NewsItem) (h : save_news_item uid e info db = (db2, some item)) :
    ∃ r ∈ db2.rows, r.id = item.id := by
  have hrel := relevant_of_save_some uid e info db db2 item h
  simp only [save_news_item, hrel] at h
  rw [if_neg (by simp)] at h
  cases hf : (insertIgnore uid e info db).rows.find?
      (fun r => r.user_id == uid && r.guid == entryGuid e) with
  | none =>
      rw [hf] at h
      simp at h
  | some r =>
      rw [hf] at h
      have hdb : insertIgnore uid e info db = db2 := congrArg Prod.fst h
      have hsnd := congrArg Prod.snd h
      simp only at hsnd
      have hid : r.id = item.id := by
        have := congrArg (fun o => (Option.map NewsItem.id o).getD 0) hsnd
        simpa using this
      refine ⟨r, ?_, hid⟩
      rw [← hdb]
      exact List.mem_of_find?_eq_some hf

/-- `mark_as_sent` sets the sent flag of a present row. -/
theorem rowSent_mark (nid : Nat) (db : DBState) (r : NewsRow)
    (hr : r ∈ db.rows) (hid : r.id = nid) :
    rowSent nid (mark_as_sent nid db) = true := by
  simp only [rowSent, mark_as_sent, List.any_eq_true]
  refine ⟨if (r.id == nid) = true then { r with sent_to_user := true } else r,
          List.mem_map_of_mem _ hr, ?_⟩
  simp [hid]

/-- The per-entry dispatch step is insensitive to the delivery outcome: the
send's exception is swallowed inside `send_news_to_user`. -/
theorem process_entry_delivery_irrelevant (m : String → String → Bool) (cfg : UserConfig)
    (uid : Nat) (e : Entry) (db : DBState) (d1 d2 : Bool) :
    process_entry m cfg d1 uid e db = process_entry m cfg d2 uid e db := rfl

/-- A whole cycle is insensitive to the per-item delivery outcomes. -/
theorem process_cycle_delivery_irrelevant (m : String → String → Bool) (cfg : UserConfig)
    (uid : Nat) (d1 d2 : Nat → Bool) :
    ∀ (entries : List Entry) (i : Nat) (db : DBState),
      process_cycle m cfg d1 uid entries i db = process_cycle m cfg d2 uid entries i db := by
  intro entries
  induction entries with
  | nil => intro i db; rfl
  | cons e rest ih =>
      intro i db
      simp only [process_cycle]
      rw [process_entry_delivery_irrelevant m cfg uid e db (d1 i) (d2 i)]
      exact ih (i + 1) _

/-- When the entry's save stored-or-found an item, the dispatch step is
exactly `mark_as_sent` on it, for every delivery outcome. -/
theorem process_entry_eq_mark (m : String → String → Bool) (cfg : UserConfig)
    (uid : Nat) (e : Entry) (db db2 : DBState) (item : NewsItem)
    (hsave : save_news_item uid e
        (check_patterns m (e.title.getD "" ++ " " ++ e.summary.getD "") cfg) db =
      (db2, some item)) :
    ∀ delivered, process_entry m cfg delivered uid e db = mark_as_sent item.id db2 := by
  intro delivered
  have hrel := relevant_of_save_some uid e _ db db2 item hsave
  simp [process_entry, hrel, hsave]

/-- Claim C2 (counterexample): a failed outbound send does not leave the
dispatched flag unset.  With delivery failing, `send_news_to_user` merely
logs the error, and the loop body still calls `mark_as_sent`: after
processing `entry0` with a failing send, the stored row (id 0) has
`sent_to_user = 1`. -/
theorem c2_counterexample :
    send_news_to_user false = SendLog.loggedError "delivery failed" ∧
    rowSent 0 (process_entry alwaysMatch cfgMajorStar false 1 entry0 dbInit) = true := by
  decide

/-- Claim C2 (amended): a failed outbound send is logged and swallowed inside
`send_news_to_user`, and the remaining items of the cycle are processed
exactly as if the send had succeeded — the whole cycle's table state is
independent of the delivery outcomes — but the item is nonetheless marked as
sent: `mark_as_sent` runs unconditionally after `send_news_to_user` returns,
so the dispatched flag is set whether or not delivery succeeded. -/
theorem c2_failed_send_amended (m : String → String → Bool) (cfg : UserConfig)
    (uid : Nat) (e : Entry) (db db2 : DBState) (item : NewsItem)
    (hsave : save_news_item uid e
        (check_patterns m (e.title.getD "" ++ " " ++ e.summary.getD "") cfg) db =
      (db2, some item)) :
    send_news_to_user false = SendLog.loggedError "delivery failed" ∧
    (∀ delivered, process_entry m cfg delivered uid e db = mark_as_sent item.id db2) ∧
    rowSent item.id (process_entry m cfg false uid e db) = true ∧
    (∀ (d1 d2 : Nat → Bool) (entries : List Entry) (i : Nat) (db0 : DBState),
      process_cycle m cfg d1 uid entries i db0 = process_cycle m cfg d2 uid entries i db0) := by
  refine ⟨rfl, process_entry_eq_mark m cfg uid e db db2 item hsave, ?_,
          fun d1 d2 => process_cycle_delivery_irrelevant m cfg uid d1 d2⟩
  rw [process_entry_eq_mark m cfg uid e db db2 item hsave false]
  obtain ⟨r, hr, hid⟩ := save_some_row_mem uid e _ db db2 item hsave
  exact rowSent_mark item.id db2 r hr hid

/-- Witness for C2's amended theorem at the concrete failing-send run. -/
theorem c2_witness :
    send_news_to_user false = SendLog.loggedError "delivery failed" ∧
    rowSent itemSample.id (process_entry alwaysMatch cfgMajorStar false 1 entry0 dbInit) = true :=
  ⟨(c2_failed_send_amended alwaysMatch cfgMajorStar 1 entry0 dbInit db2Sample itemSample
      (by decide)).1,
   (c2_failed_send_amended alwaysMatch cfgMajorStar 1 entry0 dbInit db2Sample itemSample
      (by decide)).2.2.1⟩
